import Mathlib

/-!
Verification of the GBDebugger tile/sprite decode pipeline.

This file shallowly embeds the relevant C++ sources of the GBDebugger
repository (TileDecoder.cpp, PaletteManager.cpp, SpriteParser.cpp,
panels/VRAMViewerPanel.cpp, GBDebugger.cpp) as executable Lean
definitions.  Machine bytes are modelled as `Nat` with explicit masking
where the C++ types truncate; raw pointers are modelled as
`Option (Nat → Nat)` (a null pointer is `none`, a non-null pointer is
the byte-valued function it points at); fixed C++ arrays are modelled
as functions out of `Fin n`.
-/

namespace GBDebug

/-- Byte source behind a (non-null) `const uint8_t*`: address → byte. -/
def ByteBuf : Type := Nat → Nat

/-- Embedding of `EmulationMode` from panels/VRAMViewerPanel.h. -/
inductive EmulationMode where
  | DMG
  | CGB
deriving DecidableEq, Repr

/-- Embedding of `TileColor` from panels/VRAMViewerPanel.h: an RGBA color, one byte
per channel. -/
structure TileColor where
  r : Nat
  g : Nat
  b : Nat
  a : Nat
deriving DecidableEq, Repr

/-- Embedding of `Palette` from panels/VRAMViewerPanel.h: 4 RGBA colors. -/
structure Palette where
  colors : Fin 4 → TileColor

/-- Embedding of `CGBPalette` from panels/VRAMViewerPanel.h: 4 raw RGB555 values. -/
structure CGBPalette where
  colors : Fin 4 → Nat

/-! TileDecoder (src/TileDecoder.cpp) -/

/-- Embedding of `TileDecoder::DecodePixel` (TileDecoder.cpp lines 11-40): extract
the 2-bit color index of pixel (x, y) of a 16-byte tile, with optional
horizontal/vertical flips remapping the source row/column. -/
def DecodePixel (tileData : ByteBuf) (x y : Nat) (hFlip vFlip : Bool) : Nat :=
  let actualY := if vFlip then 7 - y else y
  let actualX := if hFlip then 7 - x else x
  let rowOffset := actualY * 2
  let lsbByte := tileData rowOffset
  let msbByte := tileData (rowOffset + 1)
  let bitPosition := 7 - actualX
  let lsb := (lsbByte >>> bitPosition) &&& 1
  let msb := (msbByte >>> bitPosition) &&& 1
  (msb <<< 1) ||| lsb

/-- Embedding of `TileDecoder::DecodeTile` (TileDecoder.cpp lines 42-64): decode the
8×8 grid of color indices of tile `tileIndex` inside a VRAM buffer.
The C++ offset `tileIndex * 16` is a `uint16_t`, hence the `% 65536`. -/
def DecodeTile (vram : ByteBuf) (tileIndex : Nat) (bank : Nat) :
    Fin 8 → Fin 8 → Nat :=
  fun y x =>
    DecodePixel (fun j => vram (tileIndex * 16 % 65536 + j)) x.val y.val false false

/-- Modelled from the spec: re-encoding one row of decoded indices into a
planar byte — "packing bit 0 of each index into the LSB byte and bit 1
into the MSB byte at bit 7-x".  `f x` is the bit contributed by column
`x`; it lands at bit position `7 - x`. -/
def packBits (f : Fin 8 → Nat) : Nat :=
  (f 0 <<< 7) ||| (f 1 <<< 6) ||| (f 2 <<< 5) ||| (f 3 <<< 4) |||
  (f 4 <<< 3) ||| (f 5 <<< 2) ||| (f 6 <<< 1) ||| (f 7 <<< 0)

/-- Modelled from the spec: re-encoding a decoded 8×8 index grid back
into 2bpp planar form, byte `i` of 16 (LSB plane at even offsets, MSB
plane at odd offsets, row `i / 2`). -/
def encodeTile (grid : Fin 8 → Fin 8 → Nat) (i : Nat) : Nat :=
  if h : i < 16 then
    let r : Fin 8 := ⟨i / 2, by omega⟩
    if i % 2 = 0 then packBits (fun x => grid r x &&& 1)
    else packBits (fun x => (grid r x >>> 1) &&& 1)
  else 0

/-! PaletteManager (src/PaletteManager.cpp) -/

/-- Embedding of `PaletteManager::ConvertCGBColor` (PaletteManager.cpp lines 45-64):
RGB555 → RGBA8888 by bit replication, alpha forced to 255. -/
def ConvertCGBColor (cgbColor : Nat) : TileColor :=
  let r5 := cgbColor &&& 0x1F
  let g5 := (cgbColor >>> 5) &&& 0x1F
  let b5 := (cgbColor >>> 10) &&& 0x1F
  let r8 := (r5 <<< 3) ||| (r5 >>> 2)
  let g8 := (g5 <<< 3) ||| (g5 >>> 2)
  let b8 := (b5 <<< 3) ||| (b5 >>> 2)
  ⟨r8, g8, b8, 255⟩

/-- The channel expansion from the spec: `out5to8(c5) = (c5 << 3) | (c5 >> 2)`. -/
def out5to8 (c5 : Nat) : Nat := (c5 <<< 3) ||| (c5 >>> 2)

/-- The fixed DMG grayscale palette built by
`PaletteManager::InitializeDMGPalette` (PaletteManager.cpp lines 21-31). -/
def dmgGrayscalePalette : Palette :=
  ⟨fun i =>
    match i with
    | 0 => ⟨255, 255, 255, 255⟩
    | 1 => ⟨192, 192, 192, 255⟩
    | 2 => ⟨96, 96, 96, 255⟩
    | 3 => ⟨0, 0, 0, 255⟩⟩

/-- State held by a `PaletteManager` (PaletteManager.h): mode, the DMG
palette, the 8 converted background and 8 converted sprite palettes, and
the two UI selection indices (C++ `int`, hence `Int`). -/
structure PaletteManager where
  mode : EmulationMode
  dmgPalette : Palette
  bgPalettes : Fin 8 → Palette
  spritePalettes : Fin 8 → Palette
  selectedBGPalette : Int
  selectedSpritePalette : Int

/-- The `PaletteManager` constructor (PaletteManager.cpp lines 6-19):
DMG mode, grayscale DMG palette, all CGB palettes defaulted to black. -/
def PaletteManager.init : PaletteManager :=
  { mode := EmulationMode.DMG
    dmgPalette := dmgGrayscalePalette
    bgPalettes := fun _ => ⟨fun _ => ⟨0, 0, 0, 255⟩⟩
    spritePalettes := fun _ => ⟨fun _ => ⟨0, 0, 0, 255⟩⟩
    selectedBGPalette := 0
    selectedSpritePalette := 0 }

/-- The index clamp `std::max(0, std::min(index, 7))` used by
`GetBGPalette`/`GetSpritePalette` (PaletteManager.cpp lines 107, 118). -/
def clampPaletteIndex (index : Int) : Fin 8 :=
  ⟨(max 0 (min index 7)).toNat, by omega⟩

/-- Embedding of `PaletteManager::GetBGPalette` (PaletteManager.cpp lines 100-109). -/
def GetBGPalette (pm : PaletteManager) (index : Int) : Palette :=
  if pm.mode = EmulationMode.DMG then pm.dmgPalette
  else pm.bgPalettes (clampPaletteIndex index)

/-- Embedding of `PaletteManager::GetSpritePalette` (PaletteManager.cpp lines 111-120). -/
def GetSpritePalette (pm : PaletteManager) (index : Int) : Palette :=
  if pm.mode = EmulationMode.DMG then pm.dmgPalette
  else pm.spritePalettes (clampPaletteIndex index)

/-! SpriteParser (src/SpriteParser.cpp) -/

/-- Embedding of `SpriteAttributes` from panels/VRAMViewerPanel.h, with the defaults
of its C++ default constructor. -/
structure SpriteAttributes where
  y : Nat := 0
  x : Nat := 0
  tileIndex : Nat := 0
  flags : Nat := 0
  priority : Bool := false
  yFlip : Bool := false
  xFlip : Bool := false
  paletteNumber : Nat := 0
  vramBank : Nat := 0
deriving DecidableEq, Repr

/-- Embedding of `SpriteParser::MAX_SPRITES` (SpriteParser.h). -/
def MAX_SPRITES : Nat := 40

/-- Embedding of `SpriteParser::SPRITE_ENTRY_SIZE` (SpriteParser.h). -/
def SPRITE_ENTRY_SIZE : Nat := 4

/-- Embedding of `SpriteParser::OAM_SIZE` (SpriteParser.h). -/
def OAM_SIZE : Nat := MAX_SPRITES * SPRITE_ENTRY_SIZE

/-- Embedding of `SpriteParser::ParseSprite` (SpriteParser.cpp lines 25-70): a null
entry yields the default-constructed sprite; otherwise all fields come
from the 4 bytes of the entry. -/
def ParseSprite (entry : Option ByteBuf) : SpriteAttributes :=
  match entry with
  | none => {}
  | some e =>
    let flags := e 3
    { y := e 0
      x := e 1
      tileIndex := e 2
      flags := flags
      priority := (flags &&& 0x80) ≠ 0
      yFlip := (flags &&& 0x40) ≠ 0
      xFlip := (flags &&& 0x20) ≠ 0
      paletteNumber := (flags &&& 0x10) >>> 4
      vramBank := (flags &&& 0x08) >>> 3 }

/-- Embedding of `SpriteParser::ParseOAM` (SpriteParser.cpp lines 5-23): null pointer
or `size < OAM_SIZE` yields the empty list; otherwise all 40 entries are
parsed, entry `i` from the 4 bytes at offset `i * 4`. -/
def ParseOAM (oam : Option ByteBuf) (size : Nat) : List SpriteAttributes :=
  match oam with
  | none => []
  | some buf =>
    if size < OAM_SIZE then []
    else (List.range MAX_SPRITES).map fun i =>
      ParseSprite (some fun j => buf (i * SPRITE_ENTRY_SIZE + j))

/-! VRAMViewerPanel (src/panels/VRAMViewerPanel.cpp) -/

/-- Embedding of `VRAMSource` from panels/VRAMViewerPanel.h. -/
inductive VRAMSource where
  | MappedMemory
  | Bank0
  | Bank1
deriving DecidableEq, Repr

/-- Embedding of `VRAMViewerState` from panels/VRAMViewerPanel.h, with its default
constructor values.  `selectedTile` is a C++ `int` (−1 means none). -/
structure VRAMViewerState where
  mode : EmulationMode := EmulationMode.DMG
  currentBank : Nat := 0
  selectedTile : Int := -1
  selectedPalette : Int := 0
  showSprites : Bool := false
  showGrid : Bool := true
  tileScale : Nat := 2
  needsRefresh : Bool := true

/-- Data members of `VRAMViewerPanel` (panels/VRAMViewerPanel.h): the
two internal 8192-byte VRAM banks, the 160-byte OAM copy, the raw CGB
palettes, the viewer state, visibility, the two non-owning external
bank pointers, and the VRAM source selection.  (The decoder, renderer
and palette-manager sub-objects carry no state the verified operations
read or write, except the palette manager, which is not touched by
`UpdateVRAM`/`SetVRAMBankData`/`GetVRAMData`.) -/
structure VRAMViewerPanel where
  vramBank0 : Fin 8192 → Nat
  vramBank1 : Fin 8192 → Nat
  oam : Fin 160 → Nat
  bgPalettes : Fin 8 → CGBPalette
  spritePalettes : Fin 8 → CGBPalette
  state : VRAMViewerState
  visible : Bool
  vramBank0External : Option ByteBuf
  vramBank1External : Option ByteBuf
  vramSource : VRAMSource

/-- The `VRAMViewerPanel` constructor (VRAMViewerPanel.cpp lines 23-52):
zeroed buffers and palettes, default state, visible, no external bank
data, mapped-memory source. -/
def VRAMViewerPanel.init : VRAMViewerPanel :=
  { vramBank0 := fun _ => 0
    vramBank1 := fun _ => 0
    oam := fun _ => 0
    bgPalettes := fun _ => ⟨fun _ => 0⟩
    spritePalettes := fun _ => ⟨fun _ => 0⟩
    state := {}
    visible := true
    vramBank0External := none
    vramBank1External := none
    vramSource := VRAMSource.MappedMemory }

/-- Embedding of `VRAM_BANK_SIZE` (VRAMViewerPanel.cpp line 13). -/
def VRAM_BANK_SIZE : Nat := 8192

/-- Embedding of `VRAMViewerPanel::UpdateVRAM` (VRAMViewerPanel.cpp lines 74-111):
validates pointer, size and bank; in DMG mode a bank-1 write is a no-op
success; otherwise copies the 8192 bytes into the selected internal
bank and sets `needsRefresh`.  Returns (result, new panel). -/
def VRAMViewerPanel.UpdateVRAM (p : VRAMViewerPanel) (buffer : Option ByteBuf)
    (size : Nat) (bank : Nat) : Bool × VRAMViewerPanel :=
  match buffer with
  | none => (false, p)
  | some buf =>
    if size ≠ VRAM_BANK_SIZE then (false, p)
    else if bank > 1 then (false, p)
    else if p.state.mode = EmulationMode.DMG ∧ bank ≠ 0 then (true, p)
    else if bank = 0 then
      (true, { p with vramBank0 := fun i => buf i.val,
                      state := { p.state with needsRefresh := true } })
    else
      (true, { p with vramBank1 := fun i => buf i.val,
                      state := { p.state with needsRefresh := true } })

/-- Embedding of `VRAMViewerPanel::UpdateOAM` (VRAMViewerPanel.cpp lines 113-134). -/
def VRAMViewerPanel.UpdateOAM (p : VRAMViewerPanel) (buffer : Option ByteBuf)
    (size : Nat) : Bool × VRAMViewerPanel :=
  match buffer with
  | none => (false, p)
  | some buf =>
    if size ≠ 160 then (false, p)
    else (true, { p with oam := fun i => buf i.val,
                         state := { p.state with needsRefresh := true } })

/-- Embedding of `VRAMViewerPanel::SetEmulationMode` (VRAMViewerPanel.cpp lines
177-198): only acts when the mode actually changes; then it stores the
mode, resets `currentBank` to 0 and sets `needsRefresh`. -/
def VRAMViewerPanel.SetEmulationMode (p : VRAMViewerPanel)
    (mode : EmulationMode) : VRAMViewerPanel :=
  if p.state.mode ≠ mode then
    { p with state := { p.state with
        mode := mode, currentBank := 0, needsRefresh := true } }
  else p

/-- Embedding of `VRAMViewerPanel::SetVRAMBankData` (VRAMViewerPanel.cpp lines
200-213): stores the external pointers; when both are null, reverts the
source to mapped memory; always sets `needsRefresh`. -/
def VRAMViewerPanel.SetVRAMBankData (p : VRAMViewerPanel)
    (bank0 bank1 : Option ByteBuf) : VRAMViewerPanel :=
  let p1 := { p with vramBank0External := bank0, vramBank1External := bank1 }
  let p2 :=
    match bank0, bank1 with
    | none, none => { p1 with vramSource := VRAMSource.MappedMemory }
    | _, _ => p1
  { p2 with state := { p2.state with needsRefresh := true } }

/-- Embedding of `VRAMViewerPanel::GetVRAMData` (VRAMViewerPanel.cpp lines 215-239):
resolve the viewing source to a byte buffer; external pointers win when
set, everything else falls back to the internal bank-0 buffer. -/
def VRAMViewerPanel.GetVRAMData (p : VRAMViewerPanel) : Fin 8192 → Nat :=
  match p.vramSource with
  | VRAMSource.Bank0 =>
    match p.vramBank0External with
    | some b => fun i => b i.val
    | none => p.vramBank0
  | VRAMSource.Bank1 =>
    match p.vramBank1External with
    | some b => fun i => b i.val
    | none => p.vramBank0
  | VRAMSource.MappedMemory => p.vramBank0

/-! MemoryViewerPanel::Update and GBDebugger::UpdateMemory
(src/panels/MemoryViewerPanel.cpp, src/GBDebugger.cpp) -/

/-- Embedding of `MemoryState` from DebuggerTypes.h. -/
structure MemoryState where
  buffer : Fin 65536 → Nat
  is_valid : Bool

/-- Embedding of `MemoryViewerPanel::Update` (MemoryViewerPanel.cpp lines 106-114):
rejects a null pointer or a size other than 65536; otherwise copies the
buffer and marks the state valid. -/
def MemoryViewerPanel.Update (st : MemoryState) (buffer : Option ByteBuf)
    (size : Nat) : Bool × MemoryState :=
  match buffer with
  | none => (false, st)
  | some b =>
    if size ≠ 65536 then (false, st)
    else (true, { buffer := fun i => b i.val, is_valid := true })

/-- The state of `GBDebugger` read or written by `UpdateMemory`
(GBDebugger.h): the state of the memory panel and the VRAM panel.  The other
panels and the SDL backend are untouched by it. -/
structure GBDebugger where
  memoryState : MemoryState
  vramPanel : VRAMViewerPanel

/-- Embedding of `GBDebugger::UpdateMemory` (GBDebugger.cpp lines 109-132): forwards
to the memory panel; on success with a non-null 65536-byte buffer it
auto-detects CGB mode from byte 0x0143, pushes bytes 0x8000-0x9FFF to
the VRAM panel as bank 0 and bytes 0xFE00-0xFE9F as OAM. -/
def GBDebugger.UpdateMemory (d : GBDebugger) (buffer : Option ByteBuf)
    (size : Nat) : Bool × GBDebugger :=
  let r := MemoryViewerPanel.Update d.memoryState buffer size
  let result := r.1
  let d1 : GBDebugger := { d with memoryState := r.2 }
  match buffer with
  | none => (result, d1)
  | some b =>
    if result = true ∧ size = 65536 then
      let cgbFlag := b 0x0143
      let v1 :=
        if cgbFlag = 0x80 ∨ cgbFlag = 0xC0 then
          VRAMViewerPanel.SetEmulationMode d1.vramPanel EmulationMode.CGB
        else
          VRAMViewerPanel.SetEmulationMode d1.vramPanel EmulationMode.DMG
      let v2 := (VRAMViewerPanel.UpdateVRAM v1 (some fun i => b (0x8000 + i)) 8192 0).2
      let v3 := (VRAMViewerPanel.UpdateOAM v2 (some fun i => b (0xFE00 + i)) 160).2
      (result, { d1 with vramPanel := v3 })
    else (result, d1)

/-! Helper lemmas for the tile round trip -/

set_option maxRecDepth 4096 in
/-- Re-assembling the 8 bits of a byte at their own positions gives the
byte back. -/
theorem byte_sum_bits :
    ∀ b : Fin 256, packBits (fun x => (b.val >>> (7 - x.val)) &&& 1) = b.val := by
  decide

/-- Unfolding `DecodeTile` at a pixel: the per-pixel 2bpp formula. -/
theorem DecodeTile_apply (vram : ByteBuf) (t bank : Nat) (y x : Fin 8) :
    DecodeTile vram t bank y x =
      (((vram (t * 16 % 65536 + (y.val * 2 + 1)) >>> (7 - x.val)) &&& 1) <<< 1) |||
      ((vram (t * 16 % 65536 + y.val * 2) >>> (7 - x.val)) &&& 1) := rfl

/-- Bit 0 of a packed 2-bit index is the LSB-plane bit. -/
theorem and_one_of_pack (msb lsb : Nat) (hm : msb ≤ 1) (hl : lsb ≤ 1) :
    ((msb <<< 1) ||| lsb) &&& 1 = lsb := by
  interval_cases msb <;> interval_cases lsb <;> rfl

/-- Bit 1 of a packed 2-bit index is the MSB-plane bit. -/
theorem shiftRight_one_of_pack (msb lsb : Nat) (hm : msb ≤ 1) (hl : lsb ≤ 1) :
    (((msb <<< 1) ||| lsb) >>> 1) &&& 1 = msb := by
  interval_cases msb <;> interval_cases lsb <;> rfl

/-- Packing bit 0 of each decoded pixel of a row recovers the LSB byte. -/
theorem packBits_lsb (lsbB msbB : Nat) (h : lsbB < 256) :
    packBits (fun x =>
      ((((msbB >>> (7 - x.val)) &&& 1) <<< 1) ||| ((lsbB >>> (7 - x.val)) &&& 1)) &&& 1)
    = lsbB := by
  have e : (fun x : Fin 8 =>
      ((((msbB >>> (7 - x.val)) &&& 1) <<< 1) ||| ((lsbB >>> (7 - x.val)) &&& 1)) &&& 1)
      = fun x : Fin 8 => (lsbB >>> (7 - x.val)) &&& 1 := by
    funext x
    exact and_one_of_pack _ _ Nat.and_le_right Nat.and_le_right
  rw [e]
  exact byte_sum_bits ⟨lsbB, h⟩

/-- Packing bit 1 of each decoded pixel of a row recovers the MSB byte. -/
theorem packBits_msb (lsbB msbB : Nat) (h : msbB < 256) :
    packBits (fun x =>
      (((((msbB >>> (7 - x.val)) &&& 1) <<< 1) ||| ((lsbB >>> (7 - x.val)) &&& 1)) >>> 1) &&& 1)
    = msbB := by
  have e : (fun x : Fin 8 =>
      (((((msbB >>> (7 - x.val)) &&& 1) <<< 1) ||| ((lsbB >>> (7 - x.val)) &&& 1)) >>> 1) &&& 1)
      = fun x : Fin 8 => (msbB >>> (7 - x.val)) &&& 1 := by
    funext x
    exact shiftRight_one_of_pack _ _ Nat.and_le_right Nat.and_le_right
  rw [e]
  exact byte_sum_bits ⟨msbB, h⟩

/-! Claim theorems -/

/-- C1: For every 16-byte tile window of valid bytes, `DecodeTile`
produces the grid in which pixel (row y, column x) is
`(msbBit << 1) | lsbBit` with the bits taken at position `7 - x` of the
bytes at offsets `2*y` and `2*y + 1`, and re-encoding the decoded grid
back into 2bpp planar form reproduces the original 16 bytes. -/
theorem DecodeTile_roundTrip (vram : ByteBuf) (t : Nat)
    (h : ∀ i, i < 16 → vram (t * 16 % 65536 + i) < 256) :
    (∀ y x : Fin 8, DecodeTile vram t 0 y x =
      (((vram (t * 16 % 65536 + (y.val * 2 + 1)) >>> (7 - x.val)) &&& 1) <<< 1) |||
      ((vram (t * 16 % 65536 + y.val * 2) >>> (7 - x.val)) &&& 1))
    ∧ (∀ i, i < 16 → encodeTile (DecodeTile vram t 0) i = vram (t * 16 % 65536 + i)) := by
  constructor
  · intro y x
    exact DecodeTile_apply vram t 0 y x
  · intro i hi
    unfold encodeTile
    rw [dif_pos hi]
    by_cases hp : i % 2 = 0
    · rw [if_pos hp]
      have h2 : i = i / 2 * 2 := by omega
      conv_rhs => rw [h2]
      exact packBits_lsb (vram (t * 16 % 65536 + i / 2 * 2))
        (vram (t * 16 % 65536 + (i / 2 * 2 + 1))) (h _ (by omega))
    · rw [if_neg hp]
      have h2 : i = i / 2 * 2 + 1 := by omega
      conv_rhs => rw [h2]
      exact packBits_msb (vram (t * 16 % 65536 + i / 2 * 2))
        (vram (t * 16 % 65536 + (i / 2 * 2 + 1))) (h _ (by omega))

/-- C1 witness: the round trip evaluated on the constant tile of bytes
0xA5 at byte 5. -/
theorem DecodeTile_roundTrip_witness :
    encodeTile (DecodeTile (fun _ => 165) 0 0) 5 = 165 :=
  (DecodeTile_roundTrip (fun _ => 165) 0 (fun _ _ => by norm_num)).2 5 (by norm_num)

/-- Masking with 31 is reduction mod 32: `n &&& 31 = n % 32`. -/
theorem and_31_eq_mod (n : Nat) : n &&& 31 = n % 32 := by
  have h := Nat.and_pow_two_sub_one_eq_mod n 5
  norm_num at h
  exact h

/-- C2: For every 16-bit input, `ConvertCGBColor` returns exactly the
bit-replicated 8-bit channels of the three 5-bit fields (red bits 0-4,
green bits 5-9, blue bits 10-14), with alpha 255, and bit 15 of the
input is ignored. -/
theorem ConvertCGBColor_spec (c : Nat) (hc : c < 65536) :
    ConvertCGBColor c =
      ⟨out5to8 (c &&& 0x1F), out5to8 ((c >>> 5) &&& 0x1F),
       out5to8 ((c >>> 10) &&& 0x1F), 255⟩
    ∧ ConvertCGBColor c = ConvertCGBColor (c % 32768) := by
  clear hc
  refine ⟨rfl, ?_⟩
  unfold ConvertCGBColor
  have h5 : ∀ n : Nat, n >>> 5 = n / 32 := fun n => by
    rw [Nat.shiftRight_eq_div_pow]
  have h10 : ∀ n : Nat, n >>> 10 = n / 1024 := fun n => by
    rw [Nat.shiftRight_eq_div_pow]
  have e1 : c &&& 31 = (c % 32768) &&& 31 := by
    rw [and_31_eq_mod, and_31_eq_mod]
    omega
  have e2 : (c >>> 5) &&& 31 = ((c % 32768) >>> 5) &&& 31 := by
    rw [and_31_eq_mod, and_31_eq_mod, h5, h5]
    omega
  have e3 : (c >>> 10) &&& 31 = ((c % 32768) >>> 10) &&& 31 := by
    rw [and_31_eq_mod, and_31_eq_mod, h10, h10]
    omega
  rw [e1, e2, e3]

/-- C2 witness: the conversion evaluated at input 0x7FFF (white). -/
theorem ConvertCGBColor_spec_witness :
    ConvertCGBColor 0x7FFF =
      ⟨out5to8 (0x7FFF &&& 0x1F), out5to8 ((0x7FFF >>> 5) &&& 0x1F),
       out5to8 ((0x7FFF >>> 10) &&& 0x1F), 255⟩
    ∧ ConvertCGBColor 0x7FFF = ConvertCGBColor (0x7FFF % 32768) :=
  ConvertCGBColor_spec 0x7FFF (by norm_num)

/-- C3 counterexample: a non-null 161-byte-sized call does not return
the empty list (it parses all 40 sprites), so "empty whenever the size
is not exactly 160" fails at size 161. -/
theorem ParseOAM_size161_not_empty :
    (161 : Nat) ≠ 160 ∧ ParseOAM (some fun _ => 0) 161 ≠ [] := by
  constructor
  · decide
  · simp [ParseOAM, OAM_SIZE, MAX_SPRITES, SPRITE_ENTRY_SIZE]

/-- C3 (amended): `ParseOAM` returns the empty list whenever the
pointer is null or the size is less than 160 (never a partial result),
and for any size of at least 160 it returns exactly 40 sprites, entry
`i` parsed from the 4 bytes at offsets `4*i .. 4*i+3`. -/
theorem ParseOAM_spec (buf : ByteBuf) (size : Nat) :
    ParseOAM none size = []
    ∧ (size < 160 → ParseOAM (some buf) size = [])
    ∧ (160 ≤ size → ParseOAM (some buf) size =
        List.ofFn (fun i : Fin 40 => ParseSprite (some fun j => buf (i.val * 4 + j)))) := by
  have hsz : OAM_SIZE = 160 := rfl
  refine ⟨rfl, ?_, ?_⟩
  · intro hs
    simp only [ParseOAM]
    rw [if_pos (by omega)]
  · intro hs
    simp only [ParseOAM]
    rw [if_neg (by omega)]
    rfl

/-- C3 witness: a 200-byte-sized parse of the zero buffer returns the
40 default sprites, and a 100-byte-sized one returns nothing. -/
theorem ParseOAM_spec_witness :
    ParseOAM (some fun _ => 0) 100 = []
    ∧ ParseOAM (some fun _ => 0) 200 =
        List.ofFn (fun i : Fin 40 => ParseSprite (some fun j => (fun _ => 0 : ByteBuf) (i.val * 4 + j))) :=
  ⟨(ParseOAM_spec (fun _ => 0) 100).2.1 (by norm_num),
   (ParseOAM_spec (fun _ => 0) 200).2.2 (by norm_num)⟩

/-- C10: `ParseSprite` of a null entry is the default-initialized
sprite, and for a non-null entry every field of the result depends only
on the 4 bytes of the entry. -/
theorem ParseSprite_spec :
    ParseSprite none =
      { y := 0, x := 0, tileIndex := 0, flags := 0, priority := false,
        yFlip := false, xFlip := false, paletteNumber := 0, vramBank := 0 }
    ∧ ∀ e e' : ByteBuf, e 0 = e' 0 → e 1 = e' 1 → e 2 = e' 2 → e 3 = e' 3 →
        ParseSprite (some e) = ParseSprite (some e') := by
  refine ⟨rfl, ?_⟩
  intro e e' h0 h1 h2 h3
  simp only [ParseSprite]
  rw [h0, h1, h2, h3]

/-- C10 witness: the sample sprite entry (46, 28, 1, 0x00) parses the
same as any other buffer agreeing on its 4 bytes. -/
theorem ParseSprite_spec_witness :
    ParseSprite (some fun j => [46, 28, 1, 0].getD j 0)
      = ParseSprite (some fun j => [46, 28, 1, 0, 99].getD j 0) :=
  ParseSprite_spec.2 _ _ rfl rfl rfl rfl

/-- C4: `UpdateVRAM` with a null buffer, a size other than 8192, or a
bank greater than 1 returns false and leaves the whole panel — both
internal banks, the OAM buffer, the palettes, the viewer state and its
`needsRefresh` flag — exactly as it was. -/
theorem UpdateVRAM_rejects (p : VRAMViewerPanel) (buffer : Option ByteBuf)
    (size : Nat) (bank : Nat)
    (h : buffer = none ∨ size ≠ 8192 ∨ bank > 1) :
    VRAMViewerPanel.UpdateVRAM p buffer size bank = (false, p) := by
  rcases buffer with _ | buf
  · rfl
  · rcases h with h | h | h
    · exact absurd h (by simp)
    · simp only [VRAMViewerPanel.UpdateVRAM]
      rw [if_pos (show size ≠ VRAM_BANK_SIZE from h)]
    · simp only [VRAMViewerPanel.UpdateVRAM]
      by_cases hs : size ≠ VRAM_BANK_SIZE
      · rw [if_pos hs]
      · rw [if_neg hs, if_pos h]

/-- C4 witness: a wrong-size update of the freshly constructed panel is
rejected without touching it. -/
theorem UpdateVRAM_rejects_witness :
    VRAMViewerPanel.UpdateVRAM VRAMViewerPanel.init (some fun _ => 0) 8191 0
      = (false, VRAMViewerPanel.init) :=
  UpdateVRAM_rejects VRAMViewerPanel.init (some fun _ => 0) 8191 0
    (Or.inr (Or.inl (by norm_num)))

/-- C5: in DMG mode, `UpdateVRAM` with a non-null buffer, size 8192 and
bank 1 returns true and copies nothing: the panel, including the
internal bank-1 buffer, is identical before and after the call. -/
theorem UpdateVRAM_DMG_bank1_noop (p : VRAMViewerPanel) (buf : ByteBuf)
    (hm : p.state.mode = EmulationMode.DMG) :
    VRAMViewerPanel.UpdateVRAM p (some buf) 8192 1 = (true, p) := by
  simp only [VRAMViewerPanel.UpdateVRAM]
  rw [if_neg (show ¬(8192 ≠ VRAM_BANK_SIZE) by norm_num [VRAM_BANK_SIZE]),
      if_neg (show ¬((1:Nat) > 1) by norm_num),
      if_pos (show p.state.mode = EmulationMode.DMG ∧ (1:Nat) ≠ 0 from ⟨hm, by norm_num⟩)]

/-- C5 witness: a bank-1 write on the freshly constructed (DMG-mode)
panel is an accepted no-op. -/
theorem UpdateVRAM_DMG_bank1_noop_witness :
    VRAMViewerPanel.UpdateVRAM VRAMViewerPanel.init (some fun _ => 7) 8192 1
      = (true, VRAMViewerPanel.init) :=
  UpdateVRAM_DMG_bank1_noop VRAMViewerPanel.init (fun _ => 7) rfl

/-- C6: `GetVRAMData` returns the external bank-0 pointer when the
source is Bank0 and that pointer is set, the external bank-1 pointer
when the source is Bank1 and that pointer is set, and in every other
case — including Bank1 with no external bank-1 pointer — the internal
mapped-memory bank-0 buffer. -/
theorem GetVRAMData_resolution (p : VRAMViewerPanel) :
    (∀ b : ByteBuf, p.vramSource = VRAMSource.Bank0 → p.vramBank0External = some b →
      VRAMViewerPanel.GetVRAMData p = fun i => b i.val)
    ∧ (∀ b : ByteBuf, p.vramSource = VRAMSource.Bank1 → p.vramBank1External = some b →
      VRAMViewerPanel.GetVRAMData p = fun i => b i.val)
    ∧ (p.vramSource = VRAMSource.MappedMemory
        ∨ (p.vramSource = VRAMSource.Bank0 ∧ p.vramBank0External = none)
        ∨ (p.vramSource = VRAMSource.Bank1 ∧ p.vramBank1External = none) →
      VRAMViewerPanel.GetVRAMData p = p.vramBank0) := by
  refine ⟨?_, ?_, ?_⟩
  · intro b hs he
    simp [VRAMViewerPanel.GetVRAMData, hs, he]
  · intro b hs he
    simp [VRAMViewerPanel.GetVRAMData, hs, he]
  · rintro (hs | ⟨hs, he⟩ | ⟨hs, he⟩)
    · simp [VRAMViewerPanel.GetVRAMData, hs]
    · simp [VRAMViewerPanel.GetVRAMData, hs, he]
    · simp [VRAMViewerPanel.GetVRAMData, hs, he]

/-- C6 witness: a panel whose source is Bank1 with no external bank-1
pointer resolves to its internal bank-0 buffer. -/
theorem GetVRAMData_resolution_witness :
    VRAMViewerPanel.GetVRAMData
        { VRAMViewerPanel.init with vramSource := VRAMSource.Bank1 }
      = ({ VRAMViewerPanel.init with vramSource := VRAMSource.Bank1 }).vramBank0 :=
  (GetVRAMData_resolution _).2.2 (Or.inr (Or.inr ⟨rfl, rfl⟩))

/-- C7: after `SetVRAMBankData(null, null)` the stored external
pointers are gone, the source is back to MappedMemory, and
`GetVRAMData` reads the internal bank-0 buffer — never a revoked
external pointer. -/
theorem SetVRAMBankData_revoke (p : VRAMViewerPanel) :
    (VRAMViewerPanel.SetVRAMBankData p none none).vramBank0External = none
    ∧ (VRAMViewerPanel.SetVRAMBankData p none none).vramBank1External = none
    ∧ (VRAMViewerPanel.SetVRAMBankData p none none).vramSource = VRAMSource.MappedMemory
    ∧ VRAMViewerPanel.GetVRAMData (VRAMViewerPanel.SetVRAMBankData p none none)
        = p.vramBank0 := by
  refine ⟨rfl, rfl, rfl, rfl⟩

/-- C8: whatever the requested index — negative or beyond 7 — palette
lookups return the fixed DMG grayscale palette while the mode is DMG,
and the stored palette at the index clamped into [0,7] while the mode
is CGB. -/
theorem palette_lookup_spec (pm : PaletteManager) (index : Int)
    (hd : pm.dmgPalette = dmgGrayscalePalette) :
    (pm.mode = EmulationMode.DMG →
      GetBGPalette pm index = dmgGrayscalePalette
      ∧ GetSpritePalette pm index = dmgGrayscalePalette)
    ∧ (pm.mode = EmulationMode.CGB →
      GetBGPalette pm index = pm.bgPalettes (clampPaletteIndex index)
      ∧ GetSpritePalette pm index = pm.spritePalettes (clampPaletteIndex index)) := by
  constructor
  · intro hm
    rw [GetBGPalette, GetSpritePalette, if_pos hm, if_pos hm, hd]
    exact ⟨rfl, rfl⟩
  · intro hm
    have hne : ¬ pm.mode = EmulationMode.DMG := by rw [hm]; simp
    rw [GetBGPalette, GetSpritePalette, if_neg hne, if_neg hne]
    exact ⟨rfl, rfl⟩

/-- C8 witness: the freshly constructed manager (DMG mode) returns the
grayscale palette at the out-of-range index −3. -/
theorem palette_lookup_spec_witness :
    GetBGPalette PaletteManager.init (-3) = dmgGrayscalePalette :=
  ((palette_lookup_spec PaletteManager.init (-3) rfl).1 rfl).1

/-- After `SetEmulationMode` the panel is in the requested mode. -/
theorem SetEmulationMode_mode (p : VRAMViewerPanel) (m : EmulationMode) :
    (VRAMViewerPanel.SetEmulationMode p m).state.mode = m := by
  unfold VRAMViewerPanel.SetEmulationMode
  by_cases h : p.state.mode ≠ m
  · rw [if_pos h]
  · rw [if_neg h]
    exact not_not.mp h

/-- A valid bank-0 `UpdateVRAM` call succeeds and copies the buffer. -/
theorem UpdateVRAM_bank0 (p : VRAMViewerPanel) (buf : ByteBuf) :
    VRAMViewerPanel.UpdateVRAM p (some buf) 8192 0 =
      (true, { p with vramBank0 := fun i => buf i.val,
                      state := { p.state with needsRefresh := true } }) := by
  simp [VRAMViewerPanel.UpdateVRAM, VRAM_BANK_SIZE]

/-- A valid `UpdateOAM` call succeeds and copies the buffer. -/
theorem UpdateOAM_ok (p : VRAMViewerPanel) (buf : ByteBuf) :
    VRAMViewerPanel.UpdateOAM p (some buf) 160 =
      (true, { p with oam := fun i => buf i.val,
                      state := { p.state with needsRefresh := true } }) := by
  simp [VRAMViewerPanel.UpdateOAM]

/-- C9: `UpdateMemory` with a non-null 65536-byte buffer returns true,
leaves the VRAM panel in CGB mode exactly when byte 0x0143 is 0x80 or
0xC0 (DMG mode otherwise), stores the 8192 bytes from offset 0x8000 as
VRAM bank 0 of the panel, and the 160 bytes from offset 0xFE00 as its
OAM. -/
theorem UpdateMemory_spec (d : GBDebugger) (b : ByteBuf) :
    (GBDebugger.UpdateMemory d (some b) 65536).1 = true
    ∧ ((GBDebugger.UpdateMemory d (some b) 65536).2.vramPanel.state.mode
        = EmulationMode.CGB ↔ (b 0x0143 = 0x80 ∨ b 0x0143 = 0xC0))
    ∧ ((GBDebugger.UpdateMemory d (some b) 65536).2.vramPanel.state.mode
        = EmulationMode.DMG ↔ ¬(b 0x0143 = 0x80 ∨ b 0x0143 = 0xC0))
    ∧ (GBDebugger.UpdateMemory d (some b) 65536).2.vramPanel.vramBank0
        = (fun i => b (0x8000 + i.val))
    ∧ (GBDebugger.UpdateMemory d (some b) 65536).2.vramPanel.oam
        = (fun i => b (0xFE00 + i.val)) := by
  have hmem : MemoryViewerPanel.Update d.memoryState (some b) 65536
      = (true, { buffer := fun i => b i.val, is_valid := true }) := by
    simp [MemoryViewerPanel.Update]
  by_cases hc : b 0x0143 = 0x80 ∨ b 0x0143 = 0xC0
  · refine ⟨?_, ?_, ?_, ?_, ?_⟩ <;>
      simp [GBDebugger.UpdateMemory, hmem, UpdateVRAM_bank0, UpdateOAM_ok,
        SetEmulationMode_mode, hc]
  · refine ⟨?_, ?_, ?_, ?_, ?_⟩ <;>
      simp [GBDebugger.UpdateMemory, hmem, UpdateVRAM_bank0, UpdateOAM_ok,
        SetEmulationMode_mode, hc]

end GBDebug
